import Mathlib

/-!
Verification development for the checkbox page-object of the
`playwright-tests` repository.

The repository under study is a Playwright test-automation project around a
two-checkbox reference page.  We give a shallow embedding of the browser DOM
state that the page object manipulates, of the relevant Playwright locator
primitives, and of the page-object methods of
`src/pages/CheckboxPage.ts` and `src/pages/BasePage.ts`, translated line by
line from the TypeScript source.  Interactions are state-passing functions
`Dom → Except PwError Dom`; queries are `Dom → Except PwError α`.
-/

/-- State of one `<input type="checkbox">` element of the reference page:
the live DOM `checked` property and the presence of the `checked` HTML
attribute (two independent channels that the reference page's inline script
keeps in sync on click). -/
structure Checkbox where
  property : Bool
  attr : Bool
deriving Repr, DecidableEq

/-- The checkbox form state: the elements matched by the selector
`#checkboxes input[type="checkbox"]`, in document order. -/
abbrev Dom := List Checkbox

/-- Error kinds of the harness, following the spec's error taxonomy:
interaction on a locator that resolves to no element, a wait that timed out,
and a failed `expect(...).toBe(...)` assertion. -/
inductive PwError where
  | elementNotFound
  | timeoutError
  | assertionError
deriving Repr, DecidableEq

/-- A Playwright locator produced by `this.checkboxes.nth(index)`: a lazy
reference holding the requested index; no element lookup happens at
creation time. -/
structure Locator where
  index : Int
deriving Repr, DecidableEq

/-- Resolution of `nth(i)` against the current element list (Playwright
`nth=` engine semantics: `-1` selects the last element, other indices select
the zero-based position, anything else matches nothing). -/
def resolveIdx (d : Dom) (i : Int) : Option Nat :=
  if i = -1 then
    if d.length = 0 then none else some (d.length - 1)
  else if 0 ≤ i ∧ i < (d.length : Int) then some i.toNat else none

/-- Element a locator refers to in the current DOM, if any. -/
def nthElem (d : Dom) (i : Int) : Option Checkbox :=
  (resolveIdx d i).bind fun p => d[p]?

/-- Replace the element at position `p` by `f` applied to it (identity when
out of range); the DOM update performed by an interaction. -/
def setAt (d : Dom) (p : Nat) (f : Checkbox → Checkbox) : Dom :=
  match d, p with
  | [], _ => []
  | c :: t, 0 => f c :: t
  | c :: t, Nat.succ q => c :: setAt t q f

/-- Effect of `locator.check()` on an element of the reference page: a no-op
when already checked, otherwise a click that sets the `checked` property,
which the page's inline script mirrors into the `checked` attribute
(spec section 6, external-interface contract of the target page). -/
def elemCheck (cb : Checkbox) : Checkbox :=
  if cb.property then cb else { property := true, attr := true }

/-- Effect of `locator.uncheck()` on an element of the reference page,
symmetric to `elemCheck`. -/
def elemUncheck (cb : Checkbox) : Checkbox :=
  if cb.property then { property := false, attr := false } else cb

/-- `locator.isChecked()`: resolve the locator and read the `checked`
property; an element that never appears is an interaction failure. -/
def locIsChecked (d : Dom) (loc : Locator) : Except PwError Bool :=
  match nthElem d loc.index with
  | some cb => Except.ok cb.property
  | none => Except.error PwError.elementNotFound

/-- `locator.getAttribute('checked') !== null`: resolve the locator and test
presence of the `checked` attribute. -/
def locAttrChecked (d : Dom) (loc : Locator) : Except PwError Bool :=
  match nthElem d loc.index with
  | some cb => Except.ok cb.attr
  | none => Except.error PwError.elementNotFound

/-- `locator.check()` as a DOM transformer. -/
def locCheck (d : Dom) (loc : Locator) : Except PwError Dom :=
  match resolveIdx d loc.index with
  | some p => Except.ok (setAt d p elemCheck)
  | none => Except.error PwError.elementNotFound

/-- `locator.uncheck()` as a DOM transformer. -/
def locUncheck (d : Dom) (loc : Locator) : Except PwError Dom :=
  match resolveIdx d loc.index with
  | some p => Except.ok (setAt d p elemUncheck)
  | none => Except.error PwError.elementNotFound

/-- `locator.count()`: number of elements currently matching the checkbox
selector; never fails. -/
def locCount (d : Dom) : Nat := d.length

/-- `expect(a).toBe(b)` on booleans: ok when equal, a hard assertion
failure otherwise. -/
def expectToBe (a b : Bool) : Except PwError Unit :=
  if a = b then Except.ok () else Except.error PwError.assertionError

/-- `CheckboxPage.getCheckbox(index)`: `return this.checkboxes.nth(index)` —
a total function producing a locator, with no bounds check. -/
def getCheckbox (i : Int) : Locator := { index := i }

/-- `CheckboxPage.isCheckboxChecked(index)`: reads
`propertyChecked = await checkbox.isChecked()` and returns it (the source
reads only the property channel, despite its comment). -/
def isCheckboxChecked (d : Dom) (i : Int) : Except PwError Bool :=
  locIsChecked d (getCheckbox i)

/-- `CheckboxPage.checkCheckbox(index)`: read `isChecked`, and
`if (!isChecked) await checkbox.check()`; returns the page. -/
def checkCheckbox (d : Dom) (i : Int) : Except PwError Dom :=
  match locIsChecked d (getCheckbox i) with
  | Except.error e => Except.error e
  | Except.ok isChecked => if !isChecked then locCheck d (getCheckbox i) else Except.ok d

/-- `CheckboxPage.uncheckCheckbox(index)`: read `isChecked`, and
`if (isChecked) await checkbox.uncheck()`; returns the page. -/
def uncheckCheckbox (d : Dom) (i : Int) : Except PwError Dom :=
  match locIsChecked d (getCheckbox i) with
  | Except.error e => Except.error e
  | Except.ok isChecked => if isChecked then locUncheck d (getCheckbox i) else Except.ok d

/-- `CheckboxPage.verifyCheckboxSync(index)`: read `propertyChecked` and
`attributeChecked` independently, then `expect(propertyChecked).toBe(attributeChecked)`. -/
def verifyCheckboxSync (d : Dom) (i : Int) : Except PwError Unit :=
  match locIsChecked d (getCheckbox i) with
  | Except.error e => Except.error e
  | Except.ok propertyChecked =>
    match locAttrChecked d (getCheckbox i) with
    | Except.error e => Except.error e
    | Except.ok attributeChecked => expectToBe propertyChecked attributeChecked

/-- The for-loop body of `getAllCheckboxStates`: sequentially query
`isCheckboxChecked` at each index of `ps`, collecting the results in order. -/
def statesRange (d : Dom) (ps : List Nat) : Except PwError (List Bool) :=
  match ps with
  | [] => Except.ok []
  | p :: rest =>
    match isCheckboxChecked d (Int.ofNat p) with
    | Except.error e => Except.error e
    | Except.ok b =>
      match statesRange d rest with
      | Except.error e => Except.error e
      | Except.ok l => Except.ok (b :: l)

/-- `CheckboxPage.getAllCheckboxStates()`: `count = await this.checkboxes.count()`,
then push `isCheckboxChecked(i)` for `i = 0 .. count-1`. -/
def getAllCheckboxStates (d : Dom) : Except PwError (List Bool) :=
  statesRange d (List.range (locCount d))

/-- `CheckboxPage.getCheckboxCount()`: `return await this.checkboxes.count()`. -/
def getCheckboxCount (d : Dom) : Nat := locCount d

/-- The `checked` property at position `p` of the DOM (false off the end);
only used to state theorems. -/
def propAt (d : Dom) (p : Nat) : Bool :=
  match d[p]? with
  | some cb => cb.property
  | none => false

/-- The `checked` attribute presence at position `p` of the DOM (false off
the end); only used to state theorems. -/
def attrAt (d : Dom) (p : Nat) : Bool :=
  match d[p]? with
  | some cb => cb.attr
  | none => false

/-- `INITIAL_STATES` of `src/utils/constants.ts`: checkbox 1 initially
unchecked, checkbox 2 initially checked. -/
def INITIAL_STATES : Bool × Bool := (false, true)

/-- DOM of the reference page on a fresh load: two checkboxes, the first
unchecked (no `checked` attribute), the second checked with the `checked`
attribute present in the markup (spec sections 3 and 6). -/
def initialDom : Dom :=
  [{ property := false, attr := false }, { property := true, attr := true }]

/-- One scenario step against the checkbox page: a state-changing operation
or a query of `CheckboxPage`. -/
inductive PageAction where
  | check (i : Int)
  | uncheck (i : Int)
  | isCheckedQ (i : Int)
  | sync (i : Int)
  | allStates
  | countQ
deriving Repr, DecidableEq

/-- Run one action: mutators produce the new DOM, queries leave it
untouched (a failing query still aborts the scenario). -/
def runAction (d : Dom) (a : PageAction) : Except PwError Dom :=
  match a with
  | PageAction.check i => checkCheckbox d i
  | PageAction.uncheck i => uncheckCheckbox d i
  | PageAction.isCheckedQ i => (isCheckboxChecked d i).map fun _ => d
  | PageAction.sync i => (verifyCheckboxSync d i).map fun _ => d
  | PageAction.allStates => (getAllCheckboxStates d).map fun _ => d
  | PageAction.countQ => Except.ok (getCheckboxCount d) |>.map fun _ => d

/-- Run a scenario: the sequence of page-object calls a test issues, each
awaited before the next. -/
def runActions (acts : List PageAction) (d : Dom) : Except PwError Dom :=
  match acts with
  | [] => Except.ok d
  | a :: rest =>
    match runAction d a with
    | Except.error e => Except.error e
    | Except.ok d1 => runActions rest d1

/-- `BasePage.baseURL`, hardcoded in the constructor. -/
def baseURL : String := "http://the-internet.herokuapp.com"

/-- JavaScript `s.startsWith(pre)`: `pre` is a prefix of the character
sequence of `s`. -/
def strStartsWith (s pre : String) : Bool := pre.data.isPrefixOf s.data

/-- URL computed by `BasePage.goto(path)`:
`path.startsWith('http') ? path : baseURL + path`. -/
def gotoUrl (path : String) : String :=
  if strStartsWith path "http" then path else baseURL ++ path

/-- The page state `BasePage` reads headings from: the text contents of the
`h3` elements in document order (a DOM element's `textContent` is always a
string). -/
structure BrowserPage where
  h3Texts : List String
deriving Repr, DecidableEq

/-- `BasePage.getPageHeading()`: `this.page.locator('h3').first()` then
`textContent()`.  With no `h3` present the wait for the element times out;
on an element, `textContent` yields its (never null) text. -/
def getPageHeading (p : BrowserPage) : Except PwError (Option String) :=
  match p.h3Texts.head? with
  | some t => Except.ok (some t)
  | none => Except.error PwError.timeoutError

/-- Iterate an interaction `n` times, each call awaited before the next. -/
def repeatOp (f : Dom → Except PwError Dom) : Nat → Dom → Except PwError Dom
  | 0, d => Except.ok d
  | Nat.succ n, d =>
    match f d with
    | Except.error e => Except.error e
    | Except.ok d1 => repeatOp f n d1

/-! ### Resolution and access lemmas -/

theorem resolveIdx_coe (d : Dom) (p : Nat) (h : p < d.length) :
    resolveIdx d (Int.ofNat p) = some p := by
  unfold resolveIdx
  rw [Int.ofNat_eq_natCast]
  rw [if_neg (by omega), if_pos ⟨by omega, by exact_mod_cast h⟩]
  simp

theorem resolveIdx_lt {d : Dom} {i : Int} {p : Nat} (h : resolveIdx d i = some p) :
    p < d.length := by
  unfold resolveIdx at h
  by_cases h1 : i = -1
  · rw [if_pos h1] at h
    by_cases h2 : d.length = 0
    · rw [if_pos h2] at h; cases h
    · rw [if_neg h2] at h
      simp only [Option.some.injEq] at h
      omega
  · rw [if_neg h1] at h
    by_cases h3 : 0 ≤ i ∧ i < (d.length : Int)
    · rw [if_pos h3] at h
      simp only [Option.some.injEq] at h
      omega
    · rw [if_neg h3] at h; cases h

theorem propAt_eq {d : Dom} {p : Nat} (h : p < d.length) :
    propAt d p = d[p].property := by
  simp [propAt, List.getElem?_eq_getElem h]

theorem attrAt_eq {d : Dom} {p : Nat} (h : p < d.length) :
    attrAt d p = d[p].attr := by
  simp [attrAt, List.getElem?_eq_getElem h]

theorem setAt_length (d : Dom) (p : Nat) (f : Checkbox → Checkbox) :
    (setAt d p f).length = d.length := by
  induction d generalizing p with
  | nil => rfl
  | cons c t ih =>
    cases p with
    | zero => rfl
    | succ q => simp [setAt, ih]

theorem getElem?_setAt_self (d : Dom) (p : Nat) (f : Checkbox → Checkbox) :
    (setAt d p f)[p]? = (d[p]?).map f := by
  induction d generalizing p with
  | nil => simp [setAt]
  | cons c t ih =>
    cases p with
    | zero => simp [setAt]
    | succ q => simpa [setAt] using ih q

theorem elemCheck_property (cb : Checkbox) : (elemCheck cb).property = true := by
  by_cases hb : cb.property <;> simp [elemCheck, hb]

theorem elemUncheck_property (cb : Checkbox) : (elemUncheck cb).property = false := by
  by_cases hb : cb.property <;> simp [elemUncheck, hb]

/-! ### Characterization of the locator primitives -/

theorem locIsChecked_some {d : Dom} {i : Int} {p : Nat} (hr : resolveIdx d i = some p) :
    locIsChecked d (getCheckbox i) = Except.ok (propAt d p) := by
  have hp := resolveIdx_lt hr
  unfold locIsChecked nthElem getCheckbox
  simp [hr, List.getElem?_eq_getElem hp, propAt_eq hp]

theorem locIsChecked_none {d : Dom} {i : Int} (hr : resolveIdx d i = none) :
    locIsChecked d (getCheckbox i) = Except.error PwError.elementNotFound := by
  unfold locIsChecked nthElem getCheckbox
  simp [hr]

theorem locAttrChecked_some {d : Dom} {i : Int} {p : Nat} (hr : resolveIdx d i = some p) :
    locAttrChecked d (getCheckbox i) = Except.ok (attrAt d p) := by
  have hp := resolveIdx_lt hr
  unfold locAttrChecked nthElem getCheckbox
  simp [hr, List.getElem?_eq_getElem hp, attrAt_eq hp]

theorem locCheck_some {d : Dom} {i : Int} {p : Nat} (hr : resolveIdx d i = some p) :
    locCheck d (getCheckbox i) = Except.ok (setAt d p elemCheck) := by
  unfold locCheck getCheckbox
  simp [hr]

theorem locUncheck_some {d : Dom} {i : Int} {p : Nat} (hr : resolveIdx d i = some p) :
    locUncheck d (getCheckbox i) = Except.ok (setAt d p elemUncheck) := by
  unfold locUncheck getCheckbox
  simp [hr]

/-! ### Characterization of the page-object operations -/

theorem checkCheckbox_some {d : Dom} {i : Int} {p : Nat} (hr : resolveIdx d i = some p) :
    checkCheckbox d i = Except.ok (if propAt d p then d else setAt d p elemCheck) := by
  unfold checkCheckbox
  rw [locIsChecked_some hr]
  by_cases hb : propAt d p <;> simp [hb, locCheck_some hr]

theorem checkCheckbox_none {d : Dom} {i : Int} (hr : resolveIdx d i = none) :
    checkCheckbox d i = Except.error PwError.elementNotFound := by
  unfold checkCheckbox
  rw [locIsChecked_none hr]

theorem uncheckCheckbox_some {d : Dom} {i : Int} {p : Nat} (hr : resolveIdx d i = some p) :
    uncheckCheckbox d i = Except.ok (if propAt d p then setAt d p elemUncheck else d) := by
  unfold uncheckCheckbox
  rw [locIsChecked_some hr]
  by_cases hb : propAt d p <;> simp [hb, locUncheck_some hr]

theorem uncheckCheckbox_none {d : Dom} {i : Int} (hr : resolveIdx d i = none) :
    uncheckCheckbox d i = Except.error PwError.elementNotFound := by
  unfold uncheckCheckbox
  rw [locIsChecked_none hr]

theorem isCheckboxChecked_coe (d : Dom) (p : Nat) (h : p < d.length) :
    isCheckboxChecked d (Int.ofNat p) = Except.ok (propAt d p) :=
  locIsChecked_some (resolveIdx_coe d p h)

theorem verifyCheckboxSync_some {d : Dom} {i : Int} {p : Nat} (hr : resolveIdx d i = some p) :
    verifyCheckboxSync d i = expectToBe (propAt d p) (attrAt d p) := by
  unfold verifyCheckboxSync
  rw [locIsChecked_some hr, locAttrChecked_some hr]

/-! ### Results of one check / uncheck call -/

theorem checkCheckbox_result (d : Dom) (p : Nat) (h : p < d.length) :
    ∃ d1, checkCheckbox d (Int.ofNat p) = Except.ok d1 ∧
      d1.length = d.length ∧ propAt d1 p = true := by
  have hr := resolveIdx_coe d p h
  by_cases hb : propAt d p
  · exact ⟨d, by rw [checkCheckbox_some hr, if_pos hb], rfl, hb⟩
  · refine ⟨setAt d p elemCheck, by rw [checkCheckbox_some hr, if_neg hb], setAt_length d p _, ?_⟩
    simp [propAt, getElem?_setAt_self, List.getElem?_eq_getElem h, elemCheck_property]

theorem uncheckCheckbox_result (d : Dom) (p : Nat) (h : p < d.length) :
    ∃ d1, uncheckCheckbox d (Int.ofNat p) = Except.ok d1 ∧
      d1.length = d.length ∧ propAt d1 p = false := by
  have hr := resolveIdx_coe d p h
  by_cases hb : propAt d p
  · refine ⟨setAt d p elemUncheck, by rw [uncheckCheckbox_some hr, if_pos hb], setAt_length d p _, ?_⟩
    simp [propAt, getElem?_setAt_self, List.getElem?_eq_getElem h, elemUncheck_property]
  · exact ⟨d, by rw [uncheckCheckbox_some hr, if_neg hb], rfl, by simpa using hb⟩

theorem checkCheckbox_noop (d : Dom) (p : Nat) (h : p < d.length) (hb : propAt d p = true) :
    checkCheckbox d (Int.ofNat p) = Except.ok d := by
  rw [checkCheckbox_some (resolveIdx_coe d p h), if_pos hb]

theorem uncheckCheckbox_noop (d : Dom) (p : Nat) (h : p < d.length) (hb : propAt d p = false) :
    uncheckCheckbox d (Int.ofNat p) = Except.ok d := by
  rw [uncheckCheckbox_some (resolveIdx_coe d p h), if_neg (by simp [hb])]

theorem repeatOp_fixed {f : Dom → Except PwError Dom} {d : Dom}
    (hf : f d = Except.ok d) : ∀ n, repeatOp f n d = Except.ok d := by
  intro n
  induction n with
  | zero => rfl
  | succ m ih => simp [repeatOp, hf, ih]

/-! ### Length preservation along a scenario -/

theorem checkCheckbox_length {d : Dom} {i : Int} {e : Dom}
    (h : checkCheckbox d i = Except.ok e) : e.length = d.length := by
  cases hr : resolveIdx d i with
  | none => rw [checkCheckbox_none hr] at h; cases h
  | some p =>
    rw [checkCheckbox_some hr] at h
    by_cases hb : propAt d p
    · rw [if_pos hb] at h
      cases h
      rfl
    · rw [if_neg hb] at h
      cases h
      exact setAt_length d p elemCheck

theorem uncheckCheckbox_length {d : Dom} {i : Int} {e : Dom}
    (h : uncheckCheckbox d i = Except.ok e) : e.length = d.length := by
  cases hr : resolveIdx d i with
  | none => rw [uncheckCheckbox_none hr] at h; cases h
  | some p =>
    rw [uncheckCheckbox_some hr] at h
    by_cases hb : propAt d p
    · rw [if_pos hb] at h
      cases h
      exact setAt_length d p elemUncheck
    · rw [if_neg hb] at h
      cases h
      rfl

theorem mapConst_ok {α : Type} {x : Except PwError α} {d d1 : Dom}
    (h : x.map (fun _ => d) = Except.ok d1) : d1 = d := by
  cases x with
  | error e => simp [Except.map] at h
  | ok a => simp [Except.map] at h; exact h.symm

theorem runAction_length {d : Dom} {a : PageAction} {d1 : Dom}
    (h : runAction d a = Except.ok d1) : d1.length = d.length := by
  cases a with
  | check i => exact checkCheckbox_length h
  | uncheck i => exact uncheckCheckbox_length h
  | isCheckedQ i => rw [mapConst_ok h]
  | sync i => rw [mapConst_ok h]
  | allStates => rw [mapConst_ok h]
  | countQ =>
    simp only [runAction] at h
    rw [mapConst_ok h]

theorem runActions_length {acts : List PageAction} :
    ∀ {d d1 : Dom}, runActions acts d = Except.ok d1 → d1.length = d.length := by
  induction acts with
  | nil =>
    intro d d1 h
    simp only [runActions] at h
    cases h
    rfl
  | cons a rest ih =>
    intro d d1 h
    simp only [runActions] at h
    cases ha : runAction d a with
    | error e => rw [ha] at h; cases h
    | ok dm =>
      rw [ha] at h
      rw [ih h, runAction_length ha]

/-! ### States of all checkboxes -/

theorem statesRange_ok (d : Dom) (ps : List Nat) (hps : ∀ q ∈ ps, q < d.length) :
    statesRange d ps = Except.ok (ps.map (propAt d)) := by
  induction ps with
  | nil => rfl
  | cons p rest ih =>
    have hp : p < d.length := hps p (by simp)
    rw [statesRange, isCheckboxChecked_coe d p hp, ih (fun q hq => hps q (by simp [hq]))]
    rfl

/-! ### Attribute-channel independence of the property query -/

theorem isCheckboxChecked_map (g : Checkbox → Checkbox)
    (hg : ∀ cb, (g cb).property = cb.property) (d : Dom) (i : Int) :
    isCheckboxChecked (d.map g) i = isCheckboxChecked d i := by
  have hres : resolveIdx (d.map g) i = resolveIdx d i := by
    simp [resolveIdx]
  unfold isCheckboxChecked locIsChecked nthElem getCheckbox
  rw [hres]
  cases hr : resolveIdx d i with
  | none => rfl
  | some q =>
    have hmap : (d.map g)[q]? = (d[q]?).map g := by simp
    show (match (d.map g)[q]? with
        | some cb => Except.ok cb.property
        | none => Except.error PwError.elementNotFound) =
      match d[q]? with
        | some cb => Except.ok cb.property
        | none => Except.error PwError.elementNotFound
    rw [hmap]
    cases d[q]? with
    | none => rfl
    | some cb => simp [hg cb]

/-! ### Claims -/

/-- C1: The claim says `isCheckboxChecked` reads both the `checked` property
and the `checked` attribute and raises a hard sync failure whenever they
differ, never silently returning a value.  Evaluating the source translation
on a checkbox whose property is set while its attribute is absent: the query
silently returns `true`, although the two channels disagree — the separate
`verifyCheckboxSync` does fail on the very same state, witnessing the
disagreement. -/
theorem isCheckboxChecked_silent_on_desync :
    propAt [{ property := true, attr := false }] 0 = true ∧
    attrAt [{ property := true, attr := false }] 0 = false ∧
    isCheckboxChecked [{ property := true, attr := false }] 0 = Except.ok true ∧
    verifyCheckboxSync [{ property := true, attr := false }] 0 =
      Except.error PwError.assertionError :=
  ⟨rfl, rfl, rfl, rfl⟩

/-- C2: for every checkbox index of the page and every starting state,
calling `checkCheckbox` n ≥ 1 times in a row succeeds and leaves the
checkbox checked, a call on an already-checked box being a no-op;
symmetrically, `uncheckCheckbox` called n ≥ 1 times leaves it unchecked,
with a no-op on an already-unchecked box. -/
theorem checkCheckbox_uncheckCheckbox_idempotent (d : Dom) (p : Nat)
    (h : p < d.length) (n : Nat) (hn : 1 ≤ n) :
    (∃ d1, repeatOp (fun x => checkCheckbox x (Int.ofNat p)) n d = Except.ok d1 ∧
      propAt d1 p = true ∧ checkCheckbox d1 (Int.ofNat p) = Except.ok d1) ∧
    (∃ d2, repeatOp (fun x => uncheckCheckbox x (Int.ofNat p)) n d = Except.ok d2 ∧
      propAt d2 p = false ∧ uncheckCheckbox d2 (Int.ofNat p) = Except.ok d2) := by
  obtain ⟨m, rfl⟩ : ∃ m, n = m + 1 := ⟨n - 1, by omega⟩
  constructor
  · obtain ⟨d1, hd1, hlen, hprop⟩ := checkCheckbox_result d p h
    have hfix : checkCheckbox d1 (Int.ofNat p) = Except.ok d1 :=
      checkCheckbox_noop d1 p (by omega) hprop
    refine ⟨d1, ?_, hprop, hfix⟩
    have hstep : repeatOp (fun x => checkCheckbox x (Int.ofNat p)) (m + 1) d =
        match checkCheckbox d (Int.ofNat p) with
        | Except.error e => Except.error e
        | Except.ok dm => repeatOp (fun x => checkCheckbox x (Int.ofNat p)) m dm := rfl
    rw [hstep, hd1]
    exact repeatOp_fixed hfix m
  · obtain ⟨d2, hd2, hlen, hprop⟩ := uncheckCheckbox_result d p h
    have hfix : uncheckCheckbox d2 (Int.ofNat p) = Except.ok d2 :=
      uncheckCheckbox_noop d2 p (by omega) hprop
    refine ⟨d2, ?_, hprop, hfix⟩
    have hstep : repeatOp (fun x => uncheckCheckbox x (Int.ofNat p)) (m + 1) d =
        match uncheckCheckbox d (Int.ofNat p) with
        | Except.error e => Except.error e
        | Except.ok dm => repeatOp (fun x => uncheckCheckbox x (Int.ofNat p)) m dm := rfl
    rw [hstep, hd2]
    exact repeatOp_fixed hfix m

theorem checkCheckbox_uncheckCheckbox_idempotent_witness :
    (∃ d1, repeatOp (fun x => checkCheckbox x (Int.ofNat 0)) 2 initialDom = Except.ok d1 ∧
      propAt d1 0 = true ∧ checkCheckbox d1 (Int.ofNat 0) = Except.ok d1) ∧
    (∃ d2, repeatOp (fun x => uncheckCheckbox x (Int.ofNat 0)) 2 initialDom = Except.ok d2 ∧
      propAt d2 0 = false ∧ uncheckCheckbox d2 (Int.ofNat 0) = Except.ok d2) :=
  checkCheckbox_uncheckCheckbox_idempotent initialDom 0 (by decide) 2 (by decide)

/-- C3: for every checkbox index of the page and every starting state,
`checkCheckbox` immediately followed by `uncheckCheckbox` leaves the
checkbox unchecked, and `uncheckCheckbox` followed by `checkCheckbox`
leaves it checked. -/
theorem check_uncheck_roundtrip (d : Dom) (p : Nat) (h : p < d.length) :
    (∃ d1 d2, checkCheckbox d (Int.ofNat p) = Except.ok d1 ∧
      uncheckCheckbox d1 (Int.ofNat p) = Except.ok d2 ∧ propAt d2 p = false) ∧
    (∃ d3 d4, uncheckCheckbox d (Int.ofNat p) = Except.ok d3 ∧
      checkCheckbox d3 (Int.ofNat p) = Except.ok d4 ∧ propAt d4 p = true) := by
  constructor
  · obtain ⟨d1, hd1, hlen1, _⟩ := checkCheckbox_result d p h
    obtain ⟨d2, hd2, _, hp2⟩ := uncheckCheckbox_result d1 p (by omega)
    exact ⟨d1, d2, hd1, hd2, hp2⟩
  · obtain ⟨d3, hd3, hlen3, _⟩ := uncheckCheckbox_result d p h
    obtain ⟨d4, hd4, _, hp4⟩ := checkCheckbox_result d3 p (by omega)
    exact ⟨d3, d4, hd3, hd4, hp4⟩

theorem check_uncheck_roundtrip_witness :
    (∃ d1 d2, checkCheckbox initialDom (Int.ofNat 0) = Except.ok d1 ∧
      uncheckCheckbox d1 (Int.ofNat 0) = Except.ok d2 ∧ propAt d2 0 = false) ∧
    (∃ d3 d4, uncheckCheckbox initialDom (Int.ofNat 0) = Except.ok d3 ∧
      checkCheckbox d3 (Int.ofNat 0) = Except.ok d4 ∧ propAt d4 0 = true) :=
  check_uncheck_roundtrip initialDom 0 (by decide)

/-- C4: immediately after a fresh load of the reference page,
`getAllCheckboxStates` returns exactly `[false, true]` — checkbox 0
unchecked and checkbox 1 checked, matching `INITIAL_STATES`. -/
theorem getAllCheckboxStates_initial :
    getAllCheckboxStates initialDom = Except.ok [INITIAL_STATES.1, INITIAL_STATES.2] ∧
    INITIAL_STATES = (false, true) :=
  ⟨rfl, rfl⟩

/-- C5: on every DOM state, `getAllCheckboxStates` succeeds with a boolean
list whose length is the current checkbox count, whose entry at each index
`p` below the count is exactly the value the `isCheckboxChecked` query
returns for `p` on that same state — the result is a function of the
current DOM alone, recomputed from the queries, never a cache. -/
theorem getAllCheckboxStates_spec (d : Dom) :
    ∃ l, getAllCheckboxStates d = Except.ok l ∧ l.length = getCheckboxCount d ∧
      ∀ p : Nat, p < getCheckboxCount d →
        isCheckboxChecked d (Int.ofNat p) = Except.ok (propAt d p) ∧
        l[p]? = some (propAt d p) := by
  refine ⟨(List.range d.length).map (propAt d), ?_,
    by simp [getCheckboxCount, locCount], ?_⟩
  · unfold getAllCheckboxStates locCount
    exact statesRange_ok d _ (by intro q hq; simpa using hq)
  · intro p hp
    have hp2 : p < d.length := by simpa [getCheckboxCount, locCount] using hp
    refine ⟨isCheckboxChecked_coe d p hp2, ?_⟩
    rw [List.getElem?_map]
    simp [List.getElem?_range, hp2]

theorem getAllCheckboxStates_spec_witness :
    ∃ l, getAllCheckboxStates initialDom = Except.ok l ∧
      l.length = getCheckboxCount initialDom ∧
      ∀ p : Nat, p < getCheckboxCount initialDom →
        isCheckboxChecked initialDom (Int.ofNat p) = Except.ok (propAt initialDom p) ∧
        l[p]? = some (propAt initialDom p) :=
  getAllCheckboxStates_spec initialDom

/-- C6: the checkbox count is invariant across a scenario session — no
check, uncheck or query step of a scenario changes it — and every scenario
starting from the reference page keeps it equal to 2. -/
theorem getCheckboxCount_invariant (acts : List PageAction) (d d1 : Dom)
    (h : runActions acts d = Except.ok d1) :
    getCheckboxCount d1 = getCheckboxCount d ∧
      (d = initialDom → getCheckboxCount d1 = 2) := by
  have hl := runActions_length h
  refine ⟨by simpa [getCheckboxCount, locCount] using hl, ?_⟩
  intro hd
  subst hd
  simpa [getCheckboxCount, locCount, initialDom] using hl

theorem getCheckboxCount_invariant_witness :
    getCheckboxCount [{ property := true, attr := true }, { property := true, attr := true }] =
      getCheckboxCount initialDom ∧
    (initialDom = initialDom →
      getCheckboxCount
        [{ property := true, attr := true }, { property := true, attr := true }] = 2) :=
  getCheckboxCount_invariant [PageAction.check 0] initialDom
    [{ property := true, attr := true }, { property := true, attr := true }] rfl

/-- C7: `getCheckbox` performs no bounds check and returns a locator for
every integer index, negative or out of range; on an index that resolves to
no element the failure surfaces only from the subsequent interaction, as an
element-not-found error, never as a precondition check at `getCheckbox` time. -/
theorem getCheckbox_no_bounds_check (i : Int) (d : Dom) (h : resolveIdx d i = none) :
    getCheckbox i = { index := i } ∧
    isCheckboxChecked d i = Except.error PwError.elementNotFound ∧
    checkCheckbox d i = Except.error PwError.elementNotFound ∧
    uncheckCheckbox d i = Except.error PwError.elementNotFound :=
  ⟨rfl, locIsChecked_none h, checkCheckbox_none h, uncheckCheckbox_none h⟩

theorem getCheckbox_no_bounds_check_witness :
    getCheckbox 5 = { index := 5 } ∧
    isCheckboxChecked initialDom 5 = Except.error PwError.elementNotFound ∧
    checkCheckbox initialDom 5 = Except.error PwError.elementNotFound ∧
    uncheckCheckbox initialDom 5 = Except.error PwError.elementNotFound :=
  getCheckbox_no_bounds_check 5 initialDom rfl

/-- C8: `getPageHeading` never produces a null text: on a page with at
least one `h3` element it returns the text of the first one as a string,
and on a page with none it fails with a timeout rather than returning an
absent value. -/
theorem getPageHeading_spec (pg : BrowserPage) :
    getPageHeading pg ≠ Except.ok none ∧
    (∀ t rest, pg.h3Texts = t :: rest → getPageHeading pg = Except.ok (some t)) ∧
    (pg.h3Texts = [] → getPageHeading pg = Except.error PwError.timeoutError) := by
  obtain ⟨l⟩ := pg
  cases l with
  | nil =>
    refine ⟨by simp [getPageHeading], ?_, fun _ => rfl⟩
    intro t rest h
    cases h
  | cons t rest =>
    refine ⟨by simp [getPageHeading], ?_, ?_⟩
    · intro t2 rest2 h
      obtain ⟨rfl, rfl⟩ := List.cons.inj h
      rfl
    · intro h
      simp at h

theorem getPageHeading_spec_witness :
    getPageHeading { h3Texts := ["Checkboxes"] } ≠ Except.ok none ∧
    getPageHeading { h3Texts := ["Checkboxes"] } = Except.ok (some "Checkboxes") :=
  ⟨(getPageHeading_spec { h3Texts := ["Checkboxes"] }).1,
   (getPageHeading_spec { h3Texts := ["Checkboxes"] }).2.1 "Checkboxes" [] rfl⟩

/-- C9: `verifyCheckboxSync` succeeds exactly when the `checked` property
agrees with the presence of the `checked` attribute and raises the
assertion failure exactly when they differ; it mutates no checkbox state;
and it is the only operation that compares the two channels — the
`isCheckboxChecked` query and the check/uncheck operations never raise the
assertion failure, and the query's result is independent of the attribute
channel. -/
theorem verifyCheckboxSync_spec (d : Dom) (p : Nat) (h : p < d.length) :
    (verifyCheckboxSync d (Int.ofNat p) = Except.ok () ↔ propAt d p = attrAt d p) ∧
    (verifyCheckboxSync d (Int.ofNat p) = Except.error PwError.assertionError ↔
      propAt d p ≠ attrAt d p) ∧
    (propAt d p = attrAt d p →
      runActions [PageAction.sync (Int.ofNat p)] d = Except.ok d) ∧
    (∀ i : Int, isCheckboxChecked d i ≠ Except.error PwError.assertionError ∧
      checkCheckbox d i ≠ Except.error PwError.assertionError ∧
      uncheckCheckbox d i ≠ Except.error PwError.assertionError) ∧
    (∀ g : Checkbox → Checkbox, (∀ cb, (g cb).property = cb.property) →
      ∀ i : Int, isCheckboxChecked (List.map g d) i = isCheckboxChecked d i) := by
  have hr := resolveIdx_coe d p h
  have hv := verifyCheckboxSync_some hr
  refine ⟨?_, ?_, ?_, ?_, fun g hg i => isCheckboxChecked_map g hg d i⟩
  · rw [hv]
    unfold expectToBe
    by_cases hb : propAt d p = attrAt d p <;> simp [hb]
  · rw [hv]
    unfold expectToBe
    by_cases hb : propAt d p = attrAt d p <;> simp [hb]
  · intro hb
    have hrun : runActions [PageAction.sync (Int.ofNat p)] d =
        match (verifyCheckboxSync d (Int.ofNat p)).map (fun _ => d) with
        | Except.error e => Except.error e
        | Except.ok d1 => runActions [] d1 := rfl
    rw [hrun, hv]
    simp [expectToBe, hb, Except.map, runActions]
  · intro i
    cases hri : resolveIdx d i with
    | none =>
      refine ⟨?_, ?_, ?_⟩ <;>
        simp [isCheckboxChecked, locIsChecked_none hri, checkCheckbox_none hri,
          uncheckCheckbox_none hri]
    | some q =>
      refine ⟨?_, ?_, ?_⟩ <;>
        simp [isCheckboxChecked, locIsChecked_some hri, checkCheckbox_some hri,
          uncheckCheckbox_some hri]

theorem verifyCheckboxSync_spec_witness :
    verifyCheckboxSync initialDom (Int.ofNat 0) = Except.ok () ∧
    isCheckboxChecked initialDom 7 ≠ Except.error PwError.assertionError :=
  ⟨((verifyCheckboxSync_spec initialDom 0 (by decide)).1).mpr rfl,
   ((verifyCheckboxSync_spec initialDom 0 (by decide)).2.2.2.1 7).1⟩

/-- C10: for every path handed to `BasePage.goto`, the navigated URL is the
path itself when it starts with "http" and otherwise exactly the fixed base
URL `http://the-internet.herokuapp.com` concatenated with the path; the base
URL is the hardcoded constant of the constructor. -/
theorem gotoUrl_spec (path : String) :
    (strStartsWith path "http" = true → gotoUrl path = path) ∧
    (strStartsWith path "http" = false → gotoUrl path = baseURL ++ path) ∧
    baseURL = "http://the-internet.herokuapp.com" := by
  refine ⟨fun h => ?_, fun h => ?_, rfl⟩ <;> simp [gotoUrl, h]

theorem gotoUrl_spec_witness :
    gotoUrl "/checkboxes" = baseURL ++ "/checkboxes" ∧
    gotoUrl "http://example.com" = "http://example.com" :=
  ⟨(gotoUrl_spec "/checkboxes").2.1 (by decide),
   (gotoUrl_spec "http://example.com").1 (by decide)⟩
